import Mathlib

/-!
Shallow embedding of the SVG→DXF geometry pipeline of this repository:
`svg_to_dxf.py` (canvas-height resolution, coordinate flip, Bézier
flattening, the per-path polyline state machine, entity emission) and
`svg_vector_extractor.py` (shape extraction, vector categorization,
points-attribute parsing).  Coordinates are exact rationals; the `length`
fields produced by `np.sqrt`/`abs` in the source are real numbers.
-/

/-- A 2-D point, a Python pair of numbers. -/
abbrev Point : Type := ℚ × ℚ

/-- `flip_y` from svg_to_dxf.py: flip the Y coordinate for the SVG→DXF
coordinate conversion; identity when the canvas height is unknown
(Python `None`, modelled as `Option.none`). -/
def flip_y (point : Point) (height : Option ℚ) : Point :=
  match height with
  | none => point
  | some h => (point.1, h - point.2)

/-- `flip_y_list` from svg_to_dxf.py. -/
def flip_y_list (points : List Point) (height : Option ℚ) : List Point :=
  match height with
  | none => points
  | some _ => points.map (fun p => flip_y p height)

/-- `approximate_cubic_bezier` from svg_to_dxf.py: sample the cubic Bézier
polynomial at `t = i / num_points`, `i = 0 .. num_points`.  The source's
`num_points` parameter defaults to 20 and every call site uses the
default; the model passes it explicitly. -/
def approximate_cubic_bezier (p0 p1 p2 p3 : Point) (num_points : ℕ) : List Point :=
  (List.range (num_points + 1)).map (fun (i : ℕ) =>
    let t : ℚ := (i : ℚ) / (num_points : ℚ)
    ((1 - t) ^ 3 * p0.1 + 3 * (1 - t) ^ 2 * t * p1.1 + 3 * (1 - t) * t ^ 2 * p2.1 + t ^ 3 * p3.1,
     (1 - t) ^ 3 * p0.2 + 3 * (1 - t) ^ 2 * t * p1.2 + 3 * (1 - t) * t ^ 2 * p2.2 + t ^ 3 * p3.2))

/-- `approximate_quadratic_bezier` from svg_to_dxf.py (`num_points`
defaults to 15 in the source; every call site uses the default). -/
def approximate_quadratic_bezier (p0 p1 p2 : Point) (num_points : ℕ) : List Point :=
  (List.range (num_points + 1)).map (fun (i : ℕ) =>
    let t : ℚ := (i : ℚ) / (num_points : ℚ)
    ((1 - t) ^ 2 * p0.1 + 2 * (1 - t) * t * p1.1 + t ^ 2 * p2.1,
     (1 - t) ^ 2 * p0.2 + 2 * (1 - t) * t * p1.2 + t ^ 2 * p2.2))

/-- The cubic Bézier formula `B(t)` exactly as the specification states
it, for comparing the flattener's samples against the spec. -/
def cubicBezierPoint (p0 p1 p2 p3 : Point) (t : ℚ) : Point :=
  ((1 - t) ^ 3 * p0.1 + 3 * (1 - t) ^ 2 * t * p1.1 + 3 * (1 - t) * t ^ 2 * p2.1 + t ^ 3 * p3.1,
   (1 - t) ^ 3 * p0.2 + 3 * (1 - t) ^ 2 * t * p1.2 + 3 * (1 - t) * t ^ 2 * p2.2 + t ^ 3 * p3.2)

/-- The quadratic Bézier formula `B(t)` exactly as the specification
states it. -/
def quadBezierPoint (p0 p1 p2 : Point) (t : ℚ) : Point :=
  ((1 - t) ^ 2 * p0.1 + 2 * (1 - t) * t * p1.1 + t ^ 2 * p2.1,
   (1 - t) ^ 2 * p0.2 + 2 * (1 - t) * t * p1.2 + t ^ 2 * p2.2)

/-- A DXF entity as added to the ezdxf modelspace by svg_to_dxf.py,
with the layer it is placed on.  ezdxf formatting details are omitted. -/
inductive Entity : Type
  | line (start endPt : Point) (layer : String)
  | polyline (points : List Point) (closed : Bool) (layer : String)
  | spline (points : List Point) (degree : ℕ) (layer : String)
  | circle (center : Point) (radius : ℚ) (layer : String)
  | ellipse (center : Point) (majorAxis : Point) (axisFactor : ℚ) (layer : String)
  deriving DecidableEq

/-- `add_line` from svg_to_dxf.py: flips both endpoints, emits one line. -/
def add_line (start endPt : Point) (layer : String) (height : Option ℚ) : List Entity :=
  [Entity.line (flip_y start height) (flip_y endPt height) layer]

/-- `add_polyline` from svg_to_dxf.py: a points list with fewer than 2
points is dropped; otherwise the flipped polyline is emitted, closed when
requested. -/
def add_polyline (points : List Point) (layer : String) (height : Option ℚ) (closed : Bool) :
    List Entity :=
  if points.length < 2 then []
  else [Entity.polyline (flip_y_list points height) closed layer]

/-- `add_circle` from svg_to_dxf.py: a non-positive radius is skipped. -/
def add_circle (center : Point) (radius : ℚ) (layer : String) (height : Option ℚ) :
    List Entity :=
  if radius ≤ 0 then []
  else [Entity.circle (flip_y center height) radius layer]

/-- `add_ellipse` from svg_to_dxf.py: skipped unless both radii are
positive; the major axis goes along whichever of X/Y has the larger
radius, with minor/major axis factor. -/
def add_ellipse (center : Point) (rx ry : ℚ) (layer : String) (height : Option ℚ) :
    List Entity :=
  if rx ≤ 0 ∨ ry ≤ 0 then []
  else
    if rx ≥ ry then [Entity.ellipse (flip_y center height) (rx, 0) (ry / rx) layer]
    else [Entity.ellipse (flip_y center height) (0, ry) (rx / ry) layer]

/-- One serialized path segment: the output records of `parse_segment` in
svg_vector_extractor.py, consumed by `create_dxf_from_vectors`.  The
`operation` tag (`m l c q a z`) is the constructor; the `line` record
carries the serialized `length` field. -/
inductive Segment : Type
  | move (start endPt : Point)
  | line (start endPt : Point) (length : ℝ)
  | cubic (start control1 control2 endPt : Point)
  | quad (start control endPt : Point)
  | arc (start : Point) (radius : Point) (rotation : ℚ) (largeArc sweep : Bool) (endPt : Point)
  | close (start endPt : Point)

/-- The `type` field of a serialized segment (the svg.path class name). -/
def segTypeName : Segment → String
  | Segment.move _ _ => "Move"
  | Segment.line _ _ _ => "Line"
  | Segment.cubic _ _ _ _ => "CubicBezier"
  | Segment.quad _ _ _ => "QuadraticBezier"
  | Segment.arc _ _ _ _ _ _ => "Arc"
  | Segment.close _ _ => "Close"

/-- The per-path accumulation state of `create_dxf_from_vectors`:
`current_point` and `polyline_points`. -/
structure WalkState : Type where
  current_point : Option Point
  polyline_points : List Point

/-- One step of the per-path segment loop of `create_dxf_from_vectors`
(svg_to_dxf.py lines 109-198): returns the new state and the entities the
step adds to the modelspace. -/
def processSegment (layer : String) (height : Option ℚ) (st : WalkState) :
    Segment → WalkState × List Entity
  | Segment.move _ e =>
    if st.polyline_points ≠ [] ∧ st.polyline_points.length > 1 then
      (⟨some e, [e]⟩, add_polyline st.polyline_points layer height false)
    else
      (⟨some e, st.polyline_points ++ [e]⟩, [])
  | Segment.line s e _ =>
    let pts := if st.polyline_points = [] then [s] else st.polyline_points
    (⟨some e, pts ++ [e]⟩, [])
  | Segment.cubic s c1 c2 e =>
    let s' := flip_y s height
    let c1' := flip_y c1 height
    let c2' := flip_y c2 height
    let e' := flip_y e height
    (⟨some e', st.polyline_points⟩,
     [Entity.spline (approximate_cubic_bezier s' c1' c2' e' 20) 3 layer])
  | Segment.quad s c e =>
    let s' := flip_y s height
    let c' := flip_y c height
    let e' := flip_y e height
    (⟨some e', st.polyline_points⟩,
     add_polyline (approximate_quadratic_bezier s' c' e' 15) layer none false)
  | Segment.arc s _ _ _ _ e =>
    (⟨some e, st.polyline_points⟩, add_polyline [s, e] layer height false)
  | Segment.close _ _ =>
    if st.polyline_points ≠ [] ∧ st.polyline_points.length > 1 then
      (⟨st.current_point, []⟩, add_polyline st.polyline_points layer height true)
    else
      (st, [])

/-- The whole per-path walk of `create_dxf_from_vectors`: fold the
segment loop from the empty state and flush a trailing polyline of at
least 2 points as an open polyline. -/
def processPath (layer : String) (height : Option ℚ) (segments : List Segment) : List Entity :=
  let result := segments.foldl (fun (acc : WalkState × List Entity) seg =>
    let step := processSegment layer height acc.1 seg
    (step.1, acc.2 ++ step.2)) (⟨none, []⟩, [])
  result.2 ++
    (if result.1.polyline_points ≠ [] ∧ result.1.polyline_points.length > 1 then
      add_polyline result.1.polyline_points layer height false
    else [])

/-- A serialized shape record (`extract_shape_elements` output in
svg_vector_extractor.py).  Style strings (`fill`, `stroke`) are carried
in the JSON but never read by the categorizer or synthesizer, so they are
omitted; `poly`'s `tag` is the element tag string (`polyline` or
`polygon`), which the categorizer uses as the provenance string. -/
inductive Shape : Type
  | rect (x y width height : ℚ) (corners : List Point)
  | circle (center : Point) (radius : ℚ)
  | ellipse (center : Point) (radius_x radius_y : ℚ)
  | line (start endPt : Point) (length : ℝ)
  | poly (tag : String) (points : List Point) (closed : Bool)

/-- The shape loop of `create_dxf_from_vectors` (svg_to_dxf.py lines
205-241), one shape at a time. -/
def processShape (layer_by_type : Bool) (height : Option ℚ) (shape : Shape) : List Entity :=
  let layer := if layer_by_type then "SHAPES" else "0"
  match shape with
  | Shape.line s e _ => add_line s e layer height
  | Shape.rect _ _ _ _ corners =>
    if corners.length = 4 then add_polyline corners layer height true else []
  | Shape.circle c r => add_circle c r layer height
  | Shape.ellipse c rx ry => add_ellipse c rx ry layer height
  | Shape.poly _ pts closed =>
    if pts ≠ [] then add_polyline pts layer height closed else []

/-- The Euclidean length the categorizer computes with
`np.sqrt((x2-x1)**2 + (y2-y1)**2)`. -/
noncomputable def euclid (s e : Point) : ℝ :=
  Real.sqrt (((e.1 - s.1 : ℚ) : ℝ) ^ 2 + ((e.2 - s.2 : ℚ) : ℝ) ^ 2)

/-- A categorized straight segment: the line records built by
`categorize_vectors`. -/
structure CategorizedLine : Type where
  start : Point
  endPt : Point
  length : ℝ
  source : String

/-- A categorized curve record built by `categorize_vectors`: either a
path segment record (with its serialized `type` string) or a whole
circle/ellipse shape record. -/
inductive CurveRec : Type
  | fromPath (typeName : String) (seg : Segment)
  | fromShape (shape : Shape)

/-- The rectangle branch of `categorize_vectors`: four consecutive corner
pairs with wrap-around, lengths recomputed. -/
noncomputable def rectLines (corners : List Point) : List CategorizedLine :=
  (List.range 4).map (fun i =>
    let s := corners.getD i (0, 0)
    let e := corners.getD ((i + 1) % 4) (0, 0)
    { start := s, endPt := e, length := euclid s e, source := "rectangle" })

/-- The polyline/polygon branch of `categorize_vectors`: consecutive
point pairs, plus a closing segment from last to first when the shape is
closed and has more than 2 points; lengths recomputed. -/
noncomputable def polyLines (src : String) (points : List Point) (closed : Bool) :
    List CategorizedLine :=
  ((List.range (points.length - 1)).map (fun i =>
    let s := points.getD i (0, 0)
    let e := points.getD (i + 1) (0, 0)
    { start := s, endPt := e, length := euclid s e, source := src })) ++
  (if closed ∧ points.length > 2 then
    [{ start := points.getLastD (0, 0), endPt := points.headD (0, 0),
       length := euclid (points.getLastD (0, 0)) (points.headD (0, 0)), source := src }]
  else [])

/-- A serialized path record; only its `segments` field is read by the
categorizer and the synthesizer (the `d`/`fill`/`stroke` strings are
carried in the JSON but never used downstream). -/
structure PathData : Type where
  segments : List Segment

/-- `categorize_vectors` from svg_vector_extractor.py: one pass over path
segments, then one pass over shapes, appending to the `lines` and
`curves` accumulators exactly as the source's loop does.  Note path `l`
segments and shape lines copy their `length` field from the input
record; rectangle and polyline/polygon edges recompute it. -/
noncomputable def categorize_vectors (paths : List PathData) (shapes : List Shape) :
    List CategorizedLine × List CurveRec :=
  let accP := paths.foldl (fun acc path =>
    path.segments.foldl (fun (acc : List CategorizedLine × List CurveRec) seg =>
      match seg with
      | Segment.line s e len =>
        (acc.1 ++ [{ start := s, endPt := e, length := len, source := "path" }], acc.2)
      | Segment.cubic _ _ _ _ => (acc.1, acc.2 ++ [CurveRec.fromPath (segTypeName seg) seg])
      | Segment.quad _ _ _ => (acc.1, acc.2 ++ [CurveRec.fromPath (segTypeName seg) seg])
      | Segment.arc _ _ _ _ _ _ => (acc.1, acc.2 ++ [CurveRec.fromPath (segTypeName seg) seg])
      | _ => acc) acc) (([], []) : List CategorizedLine × List CurveRec)
  shapes.foldl (fun acc shape =>
    match shape with
    | Shape.line s e len =>
      (acc.1 ++ [{ start := s, endPt := e, length := len, source := "shape" }], acc.2)
    | Shape.rect _ _ _ _ corners => (acc.1 ++ rectLines corners, acc.2)
    | Shape.circle _ _ => (acc.1, acc.2 ++ [CurveRec.fromShape shape])
    | Shape.ellipse _ _ _ => (acc.1, acc.2 ++ [CurveRec.fromShape shape])
    | Shape.poly tag points closed => (acc.1 ++ polyLines tag points closed, acc.2)) accP

/-- Base-10 value of a digit run (models what Python `float` makes of the
integer part of a decimal literal). -/
def digitsVal (cs : List Char) : ℚ :=
  cs.foldl (fun a c => a * 10 + ((c.toNat - 48 : ℕ) : ℚ)) 0

/-- Every character is an ASCII decimal digit. -/
def allDigits (cs : List Char) : Bool := cs.all Char.isDigit

/-- Model of Python `float()` on an unsigned decimal literal: a digit
run, optionally split by one dot, with at least one digit in total.
Exponent forms, `inf`/`nan`, digit underscores and unicode digits are
outside the model; no call site in this repository feeds them, and the
strings reaching `float` here are whitespace-free tokens, so the
whitespace stripping `float` performs is a no-op and is omitted. -/
def parseUnsigned? (cs : List Char) : Option ℚ :=
  let intPart := cs.takeWhile (fun c => c ≠ '.')
  match cs.dropWhile (fun c => c ≠ '.') with
  | [] => if intPart ≠ [] ∧ allDigits intPart then some (digitsVal intPart) else none
  | _ :: frac =>
    if allDigits intPart ∧ allDigits frac ∧ (intPart ≠ [] ∨ frac ≠ []) then
      some (digitsVal intPart + digitsVal frac / (10 : ℚ) ^ frac.length)
    else none

/-- Model of Python `float()` on a token, including an optional sign. -/
def parseFloat? (cs : List Char) : Option ℚ :=
  match cs with
  | [] => parseUnsigned? []
  | c :: rest =>
    if c = '-' then (parseUnsigned? rest).map (fun q => -q)
    else if c = '+' then parseUnsigned? rest
    else parseUnsigned? (c :: rest)

/-- Split a character list at whitespace, keeping the chunks (helper for
Python `str.split()`). -/
def splitWsAux : List Char → List Char → List (List Char)
  | [], acc => [acc.reverse]
  | c :: rest, acc =>
    if c.isWhitespace then acc.reverse :: splitWsAux rest []
    else splitWsAux rest (c :: acc)

/-- Python `str.split()` with no argument: split at whitespace runs and
drop the empty chunks. -/
def tokenize (cs : List Char) : List (List Char) :=
  (splitWsAux cs []).filter (fun t => t ≠ [])

/-- The `svg_metadata` block of the intermediate JSON; attributes missing
from the SVG are the literal string "not specified" (the defaults
`parse_svg` writes). -/
structure SvgMetadata : Type where
  viewBox : String
  width : String
  height : String

/-- `get_svg_height` from svg_to_dxf.py: try the `height` attribute with
every character other than a digit or a dot removed; on failure try the
fourth whitespace-separated component of a 4-component `viewBox`; else
`none` — the unresolved-height case, on which the caller prints the
warning and `flip_y` becomes the identity. -/
def get_svg_height (m : SvgMetadata) : Option ℚ :=
  let fromHeight : Option ℚ :=
    if m.height ≠ "not specified" then
      parseFloat? ((m.height.toList).filter (fun c => c.isDigit || c == '.'))
    else none
  match fromHeight with
  | some h => some h
  | none =>
    if m.viewBox ≠ "not specified" then
      let parts := tokenize m.viewBox.toList
      if parts.length = 4 then
        match parseFloat? (parts.getD 3 []) with
        | some h => some h
        | none => none
      else none
    else none

/-- Python `float(tok)` in `extract_shape_elements`: a failed parse
raises (`Except.error` carries the offending token). -/
def floatE (t : List Char) : Except (List Char) ℚ :=
  match parseFloat? t with
  | some q => Except.ok q
  | none => Except.error t

/-- Python `float(elem.get(name, 0))`: a missing attribute defaults to 0,
a present attribute is parsed and a parse failure propagates. -/
def getFloatAttr (attrs : List (String × String)) (name : String) : Except (List Char) ℚ :=
  match attrs.lookup name with
  | none => Except.ok 0
  | some v => floatE v.toList

/-- The `for i in range(0, len(coords)-1, 2)` loop of
`extract_shape_elements`: consume coordinate tokens two at a time; an
unpaired trailing token is never read; a `float()` failure propagates. -/
def buildPoints : List (List Char) → Except (List Char) (List Point)
  | x :: y :: rest => do
    let xv ← floatE x
    let yv ← floatE y
    let ps ← buildPoints rest
    pure ((xv, yv) :: ps)
  | _ => Except.ok []

/-- The `points_str.replace(',', ' ')` step. -/
def commaToSpace (c : Char) : Char := if c = ',' then ' ' else c

/-- The polyline/polygon `points` attribute parser of
`extract_shape_elements`: an empty attribute short-circuits to no points,
otherwise the comma-to-space replaced string is whitespace-split and
consumed pairwise. -/
def parsePolyPoints (s : String) : Except (List Char) (List Point) :=
  if s = "" then Except.ok []
  else buildPoints (tokenize ((s.toList).map commaToSpace))

/-- The polyline/polygon branch of `extract_shape_elements`. -/
def extractPoly (tag : String) (attrs : List (String × String)) :
    Except (List Char) Shape := do
  let pts ← parsePolyPoints ((attrs.lookup "points").getD "")
  pure (Shape.poly tag pts (tag == "polygon"))

/-- The rect branch of `extract_shape_elements`: attribute defaults and
corner derivation. -/
def extractRect (attrs : List (String × String)) : Except (List Char) Shape := do
  let x ← getFloatAttr attrs "x"
  let y ← getFloatAttr attrs "y"
  let w ← getFloatAttr attrs "width"
  let h ← getFloatAttr attrs "height"
  pure (Shape.rect x y w h [(x, y), (x + w, y), (x + w, y + h), (x, y + h)])

theorem getD_range_map {α : Type} (f : ℕ → α) (n i : ℕ) (d : α) (h : i < n) :
    ((List.range n).map f).getD i d = f i := by
  rw [List.getD_eq_getElem?_getD, List.getElem?_map, List.getElem?_range h]
  rfl

theorem approximate_cubic_bezier_length (p0 p1 p2 p3 : Point) (n : ℕ) :
    (approximate_cubic_bezier p0 p1 p2 p3 n).length = n + 1 := by
  rw [approximate_cubic_bezier, List.length_map, List.length_range]

theorem approximate_quadratic_bezier_length (p0 p1 p2 : Point) (n : ℕ) :
    (approximate_quadratic_bezier p0 p1 p2 n).length = n + 1 := by
  rw [approximate_quadratic_bezier, List.length_map, List.length_range]

/-- Claim C3: the coordinate flip is an involution for every point and
every canvas height, it is `(x, H - y)` for a known height `H`, and the
identity for an unresolved height. -/
theorem C3_flip_involution :
    (∀ (p : Point) (h : Option ℚ), flip_y (flip_y p h) h = p) ∧
    (∀ (p : Point) (H : ℚ), flip_y p (some H) = (p.1, H - p.2)) ∧
    (∀ p : Point, flip_y p none = p) := by
  refine ⟨fun p h => ?_, fun p H => rfl, fun p => rfl⟩
  cases h with
  | none => rfl
  | some H =>
    show ((p.1, H - p.2).1, H - (p.1, H - p.2).2) = p
    simp

/-- Claim C1: with the default sample counts, the cubic flattener returns
exactly 21 points sampled at `t = i/20` by the spec's cubic formula, the
first being `P0` and the last `P3`; the quadratic flattener returns
exactly 16 points sampled at `t = i/15` by the spec's quadratic formula,
the first being `P0` and the last `P2`. -/
theorem C1_curve_flattener (p0 p1 p2 p3 q0 q1 q2 : Point) :
    (approximate_cubic_bezier p0 p1 p2 p3 20).length = 21 ∧
    (approximate_cubic_bezier p0 p1 p2 p3 20).getD 0 (0, 0) = p0 ∧
    (approximate_cubic_bezier p0 p1 p2 p3 20).getD 20 (0, 0) = p3 ∧
    (∀ i, i ≤ 20 →
      (approximate_cubic_bezier p0 p1 p2 p3 20).getD i (0, 0) =
        cubicBezierPoint p0 p1 p2 p3 ((i : ℚ) / 20)) ∧
    (approximate_quadratic_bezier q0 q1 q2 15).length = 16 ∧
    (approximate_quadratic_bezier q0 q1 q2 15).getD 0 (0, 0) = q0 ∧
    (approximate_quadratic_bezier q0 q1 q2 15).getD 15 (0, 0) = q2 ∧
    (∀ i, i ≤ 15 →
      (approximate_quadratic_bezier q0 q1 q2 15).getD i (0, 0) =
        quadBezierPoint q0 q1 q2 ((i : ℚ) / 15)) := by
  have hc : ∀ i, i ≤ 20 →
      (approximate_cubic_bezier p0 p1 p2 p3 20).getD i (0, 0) =
        cubicBezierPoint p0 p1 p2 p3 ((i : ℚ) / 20) := by
    intro i hi
    rw [approximate_cubic_bezier, getD_range_map _ _ _ _ (by omega)]
    norm_num [cubicBezierPoint]
  have hq : ∀ i, i ≤ 15 →
      (approximate_quadratic_bezier q0 q1 q2 15).getD i (0, 0) =
        quadBezierPoint q0 q1 q2 ((i : ℚ) / 15) := by
    intro i hi
    rw [approximate_quadratic_bezier, getD_range_map _ _ _ _ (by omega)]
    norm_num [quadBezierPoint]
  refine ⟨by rw [approximate_cubic_bezier_length], ?_, ?_, hc,
          by rw [approximate_quadratic_bezier_length], ?_, ?_, hq⟩
  · rw [hc 0 (by norm_num)]
    show cubicBezierPoint p0 p1 p2 p3 (0 / 20) = p0
    apply Prod.ext <;> · show _ = _ ; norm_num [cubicBezierPoint]
  · rw [hc 20 (by norm_num)]
    apply Prod.ext <;> · show _ = _ ; norm_num [cubicBezierPoint]
  · rw [hq 0 (by norm_num)]
    apply Prod.ext <;> · show _ = _ ; norm_num [quadBezierPoint]
  · rw [hq 15 (by norm_num)]
    apply Prod.ext <;> · show _ = _ ; norm_num [quadBezierPoint]

theorem C1_curve_flattener_witness :
    (approximate_cubic_bezier ((0 : ℚ), (0 : ℚ)) (0, 10) (10, 10) (10, 0) 20).getD 5 (0, 0) =
      cubicBezierPoint (0, 0) (0, 10) (10, 10) (10, 0) ((5 : ℚ) / 20) ∧
    (approximate_quadratic_bezier ((0 : ℚ), (0 : ℚ)) (1, 1) (2, 0) 15).getD 3 (0, 0) =
      quadBezierPoint (0, 0) (1, 1) (2, 0) ((3 : ℚ) / 15) :=
  ⟨(C1_curve_flattener (0, 0) (0, 10) (10, 10) (10, 0) (0, 0) (1, 1) (2, 0)).2.2.2.1
      5 (by norm_num),
   (C1_curve_flattener (0, 0) (0, 10) (10, 10) (10, 0) (0, 0) (1, 1) (2, 0)).2.2.2.2.2.2.2
      3 (by norm_num)⟩

/-- Claim C2: on the single path Move(0,0), Line(0,0)→(10,0),
Line(10,0)→(10,10), Close with resolved canvas height 20, the path state
machine emits exactly one closed polyline whose vertices are the flipped
points (0,20), (10,20), (10,10) in order. -/
theorem C2_single_closed_polyline :
    processPath "PATHS" (some 20)
      [Segment.move (0, 0) (0, 0),
       Segment.line (0, 0) (10, 0) 10,
       Segment.line (10, 0) (10, 10) 10,
       Segment.close (10, 10) (0, 0)] =
    [Entity.polyline [(0, 20), (10, 20), (10, 10)] true "PATHS"] := by
  simp +decide only [processPath, processSegment, add_polyline, flip_y_list, flip_y,
    List.foldl, List.map]
  norm_num

/-- Claim C8: a cubic segment leaves the accumulating polyline unchanged
and emits exactly one standalone degree-3 spline built from its 21
flattened (flipped) points; a quadratic segment leaves it unchanged and
emits exactly one standalone open polyline of its 16 flattened points. -/
theorem C8_curves_leave_polyline (layer : String) (height : Option ℚ) (st : WalkState)
    (s c1 c2 c e : Point) :
    (processSegment layer height st (Segment.cubic s c1 c2 e)).1.polyline_points =
      st.polyline_points ∧
    (processSegment layer height st (Segment.cubic s c1 c2 e)).2 =
      [Entity.spline (approximate_cubic_bezier (flip_y s height) (flip_y c1 height)
        (flip_y c2 height) (flip_y e height) 20) 3 layer] ∧
    (approximate_cubic_bezier (flip_y s height) (flip_y c1 height) (flip_y c2 height)
      (flip_y e height) 20).length = 21 ∧
    (processSegment layer height st (Segment.quad s c e)).1.polyline_points =
      st.polyline_points ∧
    (processSegment layer height st (Segment.quad s c e)).2 =
      [Entity.polyline (approximate_quadratic_bezier (flip_y s height) (flip_y c height)
        (flip_y e height) 15) false layer] ∧
    (approximate_quadratic_bezier (flip_y s height) (flip_y c height) (flip_y e height)
      15).length = 16 := by
  have hl : (approximate_quadratic_bezier (flip_y s height) (flip_y c height)
      (flip_y e height) 15).length = 16 := by
    rw [approximate_quadratic_bezier_length]
  refine ⟨rfl, rfl, by rw [approximate_cubic_bezier_length], rfl, ?_, hl⟩
  show add_polyline (approximate_quadratic_bezier (flip_y s height) (flip_y c height)
      (flip_y e height) 15) layer none false = _
  simp [add_polyline, hl, flip_y_list]

/-- Claim C9: circles with radius ≤ 0 and ellipses with a non-positive
radius are silently skipped (emit nothing), candidate polylines with
fewer than 2 points are dropped, and circles/ellipses with positive radii
are emitted as the corresponding entity. -/
theorem C9_degenerate_skip_policy :
    (∀ (c : Point) (r : ℚ) (lb : Bool) (h : Option ℚ),
      r ≤ 0 → processShape lb h (Shape.circle c r) = []) ∧
    (∀ (c : Point) (r : ℚ) (lb : Bool) (h : Option ℚ),
      0 < r → processShape lb h (Shape.circle c r) =
        [Entity.circle (flip_y c h) r (if lb then "SHAPES" else "0")]) ∧
    (∀ (c : Point) (rx ry : ℚ) (lb : Bool) (h : Option ℚ),
      rx ≤ 0 ∨ ry ≤ 0 → processShape lb h (Shape.ellipse c rx ry) = []) ∧
    (∀ (c : Point) (rx ry : ℚ) (lb : Bool) (h : Option ℚ),
      0 < rx → 0 < ry → processShape lb h (Shape.ellipse c rx ry) =
        if rx ≥ ry then
          [Entity.ellipse (flip_y c h) (rx, 0) (ry / rx) (if lb then "SHAPES" else "0")]
        else
          [Entity.ellipse (flip_y c h) (0, ry) (rx / ry) (if lb then "SHAPES" else "0")]) ∧
    (∀ (pts : List Point) (layer : String) (h : Option ℚ) (closed : Bool),
      pts.length < 2 → add_polyline pts layer h closed = []) := by
  refine ⟨?_, ?_, ?_, ?_, ?_⟩
  · intro c r lb h hr
    simp only [processShape, add_circle]
    rw [if_pos hr]
  · intro c r lb h hr
    simp only [processShape, add_circle]
    rw [if_neg (not_le.mpr hr)]
  · intro c rx ry lb h hr
    simp only [processShape, add_ellipse]
    rw [if_pos hr]
  · intro c rx ry lb h hx hy
    simp only [processShape, add_ellipse]
    rw [if_neg (not_or.mpr ⟨not_le.mpr hx, not_le.mpr hy⟩)]
  · intro pts layer h closed hlt
    rw [add_polyline, if_pos hlt]

theorem C9_degenerate_skip_policy_witness :
    processShape true (some 20) (Shape.circle (5, 5) 0) = [] ∧
    processShape true (some 20) (Shape.ellipse (1, 1) 0 3) = [] ∧
    processShape true (some 20) (Shape.circle (5, 5) 3) = [Entity.circle (5, 15) 3 "SHAPES"] ∧
    add_polyline [(0, 0)] "LINES" (some 20) false = [] := by
  refine ⟨C9_degenerate_skip_policy.1 _ _ _ _ le_rfl,
          C9_degenerate_skip_policy.2.2.1 _ _ _ _ _ (Or.inl le_rfl), ?_,
          C9_degenerate_skip_policy.2.2.2.2 _ _ _ _ (by norm_num)⟩
  have h := C9_degenerate_skip_policy.2.1 (5, 5) 3 true (some 20) (by norm_num)
  rw [h]
  norm_num [flip_y]

theorem categorize_vectors_single_path_line (s e : Point) (len : ℝ) :
    (categorize_vectors [⟨[Segment.line s e len]⟩] []).1 =
      [{ start := s, endPt := e, length := len, source := "path" }] := rfl

theorem categorize_vectors_single_shape_line (s e : Point) (len : ℝ) :
    (categorize_vectors [] [Shape.line s e len]).1 =
      [{ start := s, endPt := e, length := len, source := "shape" }] := rfl

theorem categorize_vectors_single_poly (tag : String) (pts : List Point) (closed : Bool) :
    (categorize_vectors [] [Shape.poly tag pts closed]).1 = polyLines tag pts closed := by
  show [] ++ polyLines tag pts closed = polyLines tag pts closed
  exact List.nil_append _

theorem polyLines_length (src : String) (pts : List Point) (closed : Bool) :
    (polyLines src pts closed).length =
      (pts.length - 1) + (if closed ∧ pts.length > 2 then 1 else 0) := by
  rw [polyLines, List.length_append, List.length_map, List.length_range]
  by_cases h : closed ∧ pts.length > 2 <;> simp [h]

theorem polyLines_getD (src : String) (pts : List Point) (closed : Bool) (i : ℕ)
    (h : i + 1 < pts.length) :
    (polyLines src pts closed).getD i ⟨(0, 0), (0, 0), 0, ""⟩ =
      { start := pts.getD i (0, 0), endPt := pts.getD (i + 1) (0, 0),
        length := euclid (pts.getD i (0, 0)) (pts.getD (i + 1) (0, 0)), source := src } := by
  rw [polyLines, List.getD_append _ _ _ _ (by simp; omega),
      getD_range_map _ _ _ _ (by omega)]

theorem polyLines_closing (src : String) (pts : List Point) (closed : Bool)
    (h : closed ∧ pts.length > 2) :
    (polyLines src pts closed).getLastD ⟨(0, 0), (0, 0), 0, ""⟩ =
      { start := pts.getLastD (0, 0), endPt := pts.headD (0, 0),
        length := euclid (pts.getLastD (0, 0)) (pts.headD (0, 0)), source := src } := by
  rw [polyLines, if_pos h, List.getLastD_concat]

/-- Claim C7: categorizing a polyline/polygon of N points yields N−1
consecutive segments (joining point i to point i+1, in order); when the
shape is closed with at least 3 points one closing segment from the last
point to the first is appended (N segments in total); a closed shape with
fewer than 3 points gets no closing segment. -/
theorem C7_poly_segment_count (tag : String) (pts : List Point) (closed : Bool) :
    ((categorize_vectors [] [Shape.poly tag pts closed]).1.length =
      (pts.length - 1) + (if closed ∧ pts.length > 2 then 1 else 0)) ∧
    (∀ i, i + 1 < pts.length →
      (categorize_vectors [] [Shape.poly tag pts closed]).1.getD i ⟨(0, 0), (0, 0), 0, ""⟩ =
        { start := pts.getD i (0, 0), endPt := pts.getD (i + 1) (0, 0),
          length := euclid (pts.getD i (0, 0)) (pts.getD (i + 1) (0, 0)), source := tag }) ∧
    (closed = true → 3 ≤ pts.length →
      (categorize_vectors [] [Shape.poly tag pts closed]).1.length = pts.length ∧
      (categorize_vectors [] [Shape.poly tag pts closed]).1.getLastD ⟨(0, 0), (0, 0), 0, ""⟩ =
        { start := pts.getLastD (0, 0), endPt := pts.headD (0, 0),
          length := euclid (pts.getLastD (0, 0)) (pts.headD (0, 0)), source := tag }) ∧
    (closed = true → pts.length < 3 →
      (categorize_vectors [] [Shape.poly tag pts closed]).1.length = pts.length - 1) := by
  rw [categorize_vectors_single_poly]
  refine ⟨polyLines_length tag pts closed, fun i hi => polyLines_getD tag pts closed i hi,
          fun hcl hn => ⟨?_, polyLines_closing tag pts closed ⟨by simp [hcl], by omega⟩⟩,
          fun hcl hn => ?_⟩
  · rw [polyLines_length, if_pos ⟨by simp [hcl], by omega⟩]
    omega
  · rw [polyLines_length, if_neg (fun hc => by omega)]
    omega

theorem C7_poly_segment_count_witness :
    (categorize_vectors [] [Shape.poly "polygon" [(0, 0), (1, 0), (1, 1)] true]).1.length = 3 := by
  have h := (C7_poly_segment_count "polygon" [(0, 0), (1, 0), (1, 1)] true).2.2.1
    rfl (by norm_num)
  simpa using h.1

/-- Claim C5 counterexample: the categorizer copies the `length` field of
a path line segment from the input record instead of recomputing it; a
record claiming length 999 for the segment (0,0)→(3,4) (true distance 5)
is passed through unchanged, so the produced CategorizedLine violates
the recomputed-length invariant. -/
theorem C5_length_copied_counterexample :
    ((categorize_vectors [⟨[Segment.line (0, 0) (3, 4) 999]⟩] []).1.getD 0
        ⟨(0, 0), (0, 0), 0, ""⟩).length ≠
      euclid (0, 0) (3, 4) := by
  rw [categorize_vectors_single_path_line]
  have h25 : euclid ((0 : ℚ), (0 : ℚ)) (3, 4) = Real.sqrt 25 := by
    rw [euclid]
    norm_num
  have h5 : euclid ((0 : ℚ), (0 : ℚ)) (3, 4) = 5 := by
    rw [h25, show (25 : ℝ) = 5 ^ 2 by norm_num, Real.sqrt_sq (by norm_num : (0 : ℝ) ≤ 5)]
  rw [h5]
  show (999 : ℝ) ≠ 5
  norm_num

/-- Claim C5 as amended: CategorizedLine records of rectangle-edge and
polyline/polygon-edge provenance have their length recomputed as the
Euclidean distance of their endpoints, but records of path-segment and
shape-line provenance copy the `length` field verbatim from the input
record. -/
theorem C5_length_per_provenance :
    (∀ (s e : Point) (len : ℝ),
      (categorize_vectors [⟨[Segment.line s e len]⟩] []).1 =
        [{ start := s, endPt := e, length := len, source := "path" }]) ∧
    (∀ (s e : Point) (len : ℝ),
      (categorize_vectors [] [Shape.line s e len]).1 =
        [{ start := s, endPt := e, length := len, source := "shape" }]) ∧
    (∀ (src : String) (pts : List Point) (closed : Bool),
      ∀ l ∈ polyLines src pts closed, l.length = euclid l.start l.endPt) ∧
    (∀ corners : List Point, ∀ l ∈ rectLines corners, l.length = euclid l.start l.endPt) := by
  refine ⟨fun s e len => rfl, fun s e len => rfl, ?_, ?_⟩
  · intro src pts closed l hl
    rw [polyLines] at hl
    rcases List.mem_append.mp hl with h | h
    · obtain ⟨i, _, rfl⟩ := List.mem_map.mp h
      rfl
    · by_cases hc : closed ∧ pts.length > 2
      · rw [if_pos hc] at h
        have := List.mem_singleton.mp h
        subst this
        rfl
      · rw [if_neg hc] at h
        exact absurd h (List.not_mem_nil l)
  · intro corners l hl
    obtain ⟨i, _, rfl⟩ := List.mem_map.mp hl
    rfl

theorem C5_length_per_provenance_witness :
    ({ start := ((0 : ℚ), (0 : ℚ)), endPt := (1, 0), length := euclid (0, 0) (1, 0),
       source := "polyline" } : CategorizedLine).length = euclid (0, 0) (1, 0) := by
  have hmem : ({ start := ((0 : ℚ), (0 : ℚ)), endPt := (1, 0),
                 length := euclid (0, 0) (1, 0), source := "polyline" } : CategorizedLine) ∈
      polyLines "polyline" [(0, 0), (1, 0)] false := by
    have heq : polyLines "polyline" [(0, 0), (1, 0)] false =
        [{ start := (0, 0), endPt := (1, 0), length := euclid (0, 0) (1, 0),
           source := "polyline" }] := rfl
    rw [heq]
    exact List.mem_singleton.mpr rfl
  exact C5_length_per_provenance.2.2.1 "polyline" [(0, 0), (1, 0)] false _ hmem

theorem mk_cons_ne_not_specified (d : Char) (l : List Char) (hd : d.isDigit) :
    String.mk (d :: l) ≠ "not specified" := by
  intro h
  simp only [String.ext_iff] at h
  have hdata : d :: l = "not specified".data := h
  have h2 := congrArg (fun x => x.headD ' ') hdata
  simp only [List.headD_cons] at h2
  rw [h2] at hd
  exact absurd hd (by decide)

theorem parseUnsigned?_digits (ds : List Char) (h1 : ds ≠ []) (h2 : ∀ c ∈ ds, c.isDigit) :
    parseUnsigned? ds = some (digitsVal ds) := by
  have hnotdot : ∀ c ∈ ds, (fun c => decide (c ≠ '.')) c = true := by
    intro c hc
    simp only [decide_eq_true_eq, ne_eq]
    intro he
    subst he
    exact absurd (h2 _ hc) (by decide)
  have htake : ds.takeWhile (fun c => decide (c ≠ '.')) = ds :=
    List.takeWhile_eq_self_iff.mpr hnotdot
  have hdrop : ds.dropWhile (fun c => decide (c ≠ '.')) = [] :=
    List.dropWhile_eq_nil_iff.mpr hnotdot
  have hall : allDigits ds = true := by
    rw [allDigits, List.all_eq_true]
    exact h2
  simp only [parseUnsigned?, htake, hdrop]
  rw [if_pos ⟨h1, hall⟩]

theorem parseFloat?_digits (d : Char) (ds : List Char) (hd : d.isDigit)
    (h2 : ∀ c ∈ ds, c.isDigit) :
    parseFloat? (d :: ds) = some (digitsVal (d :: ds)) := by
  have hall : ∀ c ∈ d :: ds, c.isDigit := by
    intro c hc
    rcases List.mem_cons.mp hc with rfl | hc
    · exact hd
    · exact h2 c hc
  have hm : d ≠ '-' := by
    intro he
    rw [he] at hd
    exact absurd hd (by decide)
  have hp : d ≠ '+' := by
    intro he
    rw [he] at hd
    exact absurd hd (by decide)
  simp only [parseFloat?]
  rw [if_neg hm, if_neg hp]
  exact parseUnsigned?_digits (d :: ds) (by simp) hall

theorem filter_digit_dot_append (d0 : Char) (ds suffix : List Char) (hd0 : d0.isDigit)
    (hds : ∀ c ∈ ds, c.isDigit) (hsuf : ∀ c ∈ suffix, ¬c.isDigit ∧ c ≠ '.') :
    ((d0 :: ds) ++ suffix).filter (fun c => c.isDigit || c == '.') = d0 :: ds := by
  rw [List.filter_append]
  have h1 : (d0 :: ds).filter (fun c => c.isDigit || c == '.') = d0 :: ds :=
    List.filter_eq_self.mpr (by
      intro c hc
      rcases List.mem_cons.mp hc with rfl | hc
      · simp [hd0]
      · simp [hds c hc])
  have h2 : suffix.filter (fun c => c.isDigit || c == '.') = [] :=
    List.filter_eq_nil_iff.mpr (by
      intro c hc
      obtain ⟨hnd, hne⟩ := hsuf c hc
      simp [hnd, hne])
  rw [h1, h2, List.append_nil]

/-- Claim C4: canvas-height resolution order.  (1) A height attribute of
the form digits-then-unit-suffix resolves to the digits' value whatever
the viewBox holds; (2) with the height attribute absent, the fourth
component of a 4-component viewBox is used, (3) likewise when the height
attribute is present but unparseable; (4) a viewBox with other than 4
components resolves nothing; (5) with neither source available the height
is unresolved (`none`, the caller's warning condition) and (6) the flip
with an unresolved height is the identity, so entities keep unflipped
coordinates. -/
theorem C4_canvas_height_resolution :
    (∀ (d0 : Char) (ds suffix : List Char) (vb w : String),
      d0.isDigit → (∀ c ∈ ds, c.isDigit) →
      (∀ c ∈ suffix, ¬c.isDigit ∧ c ≠ '.') →
      get_svg_height ⟨vb, w, String.mk ((d0 :: ds) ++ suffix)⟩ =
        some (digitsVal (d0 :: ds))) ∧
    (get_svg_height ⟨"0 0 100 50", "not specified", "not specified"⟩ = some 50) ∧
    (get_svg_height ⟨"0 0 100 50", "not specified", "px"⟩ = some 50) ∧
    (get_svg_height ⟨"0 0 100", "not specified", "not specified"⟩ = none) ∧
    (get_svg_height ⟨"not specified", "not specified", "not specified"⟩ = none) ∧
    (∀ p : Point, flip_y p none = p) := by
  refine ⟨?_, ?_, ?_, ?_, ?_, fun p => rfl⟩
  · intro d0 ds suffix vb w hd0 hds hsuf
    have hne : String.mk ((d0 :: ds) ++ suffix) ≠ "not specified" :=
      mk_cons_ne_not_specified d0 (ds ++ suffix) hd0
    simp only [get_svg_height]
    rw [if_pos hne]
    have htl : (String.mk ((d0 :: ds) ++ suffix)).toList = (d0 :: ds) ++ suffix := rfl
    rw [htl, filter_digit_dot_append d0 ds suffix hd0 hds hsuf,
        parseFloat?_digits d0 ds hd0 hds]
  · simp +decide [get_svg_height, tokenize, splitWsAux, parseFloat?, parseUnsigned?, digitsVal,
      allDigits, List.takeWhile, List.dropWhile]
    norm_num
  · simp +decide [get_svg_height, tokenize, splitWsAux, parseFloat?, parseUnsigned?, digitsVal,
      allDigits, List.takeWhile, List.dropWhile]
    norm_num
  · simp +decide [get_svg_height, tokenize, splitWsAux, parseFloat?, parseUnsigned?, digitsVal,
      allDigits, List.takeWhile, List.dropWhile]
  · simp +decide [get_svg_height]

theorem C4_canvas_height_resolution_witness :
    get_svg_height ⟨"0 0 5 7", "not specified", "100px"⟩ = some 100 := by
  have h := C4_canvas_height_resolution.1 '1' ['0', '0'] ['p', 'x'] "0 0 5 7" "not specified"
    (by decide) (by decide) (by decide)
  have hs : String.mk (('1' :: ['0', '0']) ++ ['p', 'x']) = "100px" := rfl
  rw [hs] at h
  rw [h]
  have c1 : ('1'.toNat - 48 : ℕ) = 1 := by decide
  have c0 : ('0'.toNat - 48 : ℕ) = 0 := by decide
  norm_num [digitsVal, List.foldl, c1, c0]

theorem buildPoints_ok_of_parseable (coords : List (List Char))
    (h : ∀ t ∈ coords, (parseFloat? t).isSome) :
    ∃ pts, buildPoints coords = Except.ok pts ∧ pts.length = coords.length / 2 := by
  induction coords using buildPoints.induct with
  | case1 x y rest ih =>
    obtain ⟨xv, hxv⟩ := Option.isSome_iff_exists.mp (h x (by simp))
    obtain ⟨yv, hyv⟩ := Option.isSome_iff_exists.mp (h y (by simp))
    obtain ⟨pts, hp, hlen⟩ := ih (fun t ht => h t (by simp [ht]))
    refine ⟨(xv, yv) :: pts, ?_, ?_⟩
    · simp only [buildPoints, floatE, hxv, hyv, hp, Bind.bind, Except.bind, Pure.pure,
        Except.pure]
    · simp only [List.length_cons, hlen]
      omega
  | case2 cs hcs =>
    rcases cs with _ | ⟨x, _ | ⟨y, rest⟩⟩
    · exact ⟨[], rfl, by norm_num⟩
    · exact ⟨[], rfl, by norm_num⟩
    · exact (hcs x y rest rfl).elim

theorem buildPoints_dropLast_of_odd (coords : List (List Char))
    (h : coords.length % 2 = 1) :
    buildPoints coords = buildPoints coords.dropLast := by
  induction coords using buildPoints.induct with
  | case1 x y rest ih =>
    have hrest : rest.length % 2 = 1 := by
      simp only [List.length_cons] at h
      omega
    have hne : rest ≠ [] := by
      intro he
      rw [he] at hrest
      simp at hrest
    have hdl : (x :: y :: rest).dropLast = x :: y :: rest.dropLast := by
      cases rest with
      | nil => exact absurd rfl hne
      | cons a tail => rfl
    rw [hdl]
    simp only [buildPoints]
    rw [ih hrest]
  | case2 cs hcs =>
    rcases cs with _ | ⟨x, _ | ⟨y, rest⟩⟩
    · simp at h
    · rfl
    · exact (hcs x y rest rfl).elim

/-- Claim C10: whenever every whitespace/comma token of the points string
is numeric, the extractor succeeds and produces exactly
⌊token count / 2⌋ points; with an odd token count 2k+1 the final
unpaired token is silently ignored (pair consumption only ever reads the
first 2k tokens, as dropping the last token does not change the result). -/
theorem C10_unpaired_token_ignored :
    (∀ s : String,
      (∀ t ∈ tokenize (s.toList.map commaToSpace), (parseFloat? t).isSome) →
      ∃ pts, parsePolyPoints s = Except.ok pts ∧
        pts.length = (tokenize (s.toList.map commaToSpace)).length / 2) ∧
    (∀ coords : List (List Char), coords.length % 2 = 1 →
      buildPoints coords = buildPoints coords.dropLast) := by
  constructor
  · intro s h
    by_cases hs : s = ""
    · subst hs
      refine ⟨[], rfl, by simp [tokenize, splitWsAux]⟩
    · rw [parsePolyPoints, if_neg hs]
      exact buildPoints_ok_of_parseable _ h
  · exact fun coords h => buildPoints_dropLast_of_odd coords h

theorem C10_unpaired_token_ignored_witness :
    ∃ pts, parsePolyPoints "0,0 10,0 10,10 5" = Except.ok pts ∧
      pts.length = (tokenize ("0,0 10,0 10,10 5".toList.map commaToSpace)).length / 2 :=
  C10_unpaired_token_ignored.1 "0,0 10,0 10,10 5" (by decide)

/-- Claim C6 counterexample: the points string "abc def" makes the shape
extractor raise (Python `float('abc')` raises ValueError, which nothing
in `extract_shape_elements` catches) instead of yielding a shape with an
empty point list, so the extractor is not failure-free on malformed
point lists. -/
theorem C6_malformed_points_counterexample :
    parsePolyPoints "abc def" = Except.error ['a', 'b', 'c'] := by
  simp +decide [parsePolyPoints, tokenize, splitWsAux, buildPoints, floatE, parseFloat?,
    parseUnsigned?, allDigits, List.takeWhile, List.dropWhile, commaToSpace,
    Bind.bind, Except.bind]

/-- Claim C6 as amended: missing numeric attributes default to 0 and a
points string with fewer than two tokens (in particular the empty
default) yields an empty point list, but a non-numeric token among the
consumed pairs makes the extractor fail with a propagating error rather
than yield an empty point list. -/
theorem C6_extractor_defaults_and_failure :
    (∀ (attrs : List (String × String)) (name : String),
      attrs.lookup name = none → getFloatAttr attrs name = Except.ok 0) ∧
    (extractRect [] = Except.ok (Shape.rect 0 0 0 0 [(0, 0), (0, 0), (0, 0), (0, 0)])) ∧
    (parsePolyPoints "" = Except.ok []) ∧
    (∀ s : String, (tokenize (s.toList.map commaToSpace)).length < 2 →
      parsePolyPoints s = Except.ok []) ∧
    (parsePolyPoints "abc def" = Except.error ['a', 'b', 'c']) := by
  refine ⟨?_, ?_, rfl, ?_, ?_⟩
  · intro attrs name hlk
    rw [getFloatAttr, hlk]
  · simp [extractRect, getFloatAttr, Bind.bind, Except.bind, Pure.pure, Except.pure]
  · intro s hlen
    by_cases hs : s = ""
    · subst hs
      rfl
    · rw [parsePolyPoints, if_neg hs]
      rcases htk : tokenize (s.toList.map commaToSpace) with _ | ⟨x, _ | ⟨y, tail⟩⟩
      · rfl
      · rfl
      · rw [htk] at hlen
        simp only [List.length_cons] at hlen
        exact absurd hlen (by omega)
  · simp +decide [parsePolyPoints, tokenize, splitWsAux, buildPoints, floatE, parseFloat?,
      parseUnsigned?, allDigits, List.takeWhile, List.dropWhile, commaToSpace,
      Bind.bind, Except.bind]

theorem C6_extractor_defaults_and_failure_witness :
    getFloatAttr [("cx", "5")] "x" = Except.ok 0 ∧ parsePolyPoints "7" = Except.ok [] :=
  ⟨C6_extractor_defaults_and_failure.1 [("cx", "5")] "x" rfl,
   C6_extractor_defaults_and_failure.2.2.2.1 "7" (by decide)⟩
